import Mathlib

/-!
# Bitcoin Switch payment pipeline: formal model

A shallow embedding of the payment-to-activation pipeline of the
`bitcoinswitch` LNbits extension, together with theorems settling the
specification's claims about it.

Sources embedded:
* `src/services/rate_service.py` — rate reconciliation helpers
  (`is_rate_within_tolerance`, `is_rate_expired`);
* `src/tasks.py` — `calculate_variable_payload` and the settlement routine
  `on_invoice_paid`;
* `src/views_lnurl.py` — the pricing dataflow of `lnurl_params` and the
  validation/creation flow of `lnurl_callback`.

Modelling conventions:
* Python `float` arithmetic is idealised as exact rational arithmetic (`ℚ`);
  every concrete value used in the theorems below is exactly representable,
  so no claim at issue depends on binary-float rounding.
* Timestamps (`datetime`) are modelled as integer seconds on a single UTC
  timeline; `quoted_at.replace(tzinfo=timezone.utc)` (the naive-timestamp
  normalisation) is the identity on such instants.
* Logging calls are effect-free and elided.  External I/O (database reads
  and writes, the websocket sink, invoice creation, the RFQ rate oracle,
  fiat conversion) is modelled by explicit state passing, input parameters,
  and an event trace.
* Python `str`/`int` conversions on integers are modelled by `intToStr` and
  `pyParseInt` below; serialisation of Python floats (`str(10000.0)`) is
  kept at the value level (`DurVal.num`), since no claim depends on the
  textual float form.
-/

namespace BitcoinSwitch

/-! ## Python numeric primitives -/

/-- Python `int(q)` truncation toward zero applied to a real-valued amount. -/
def pyTruncInt (q : ℚ) : Int :=
  if 0 ≤ q then ⌊q⌋ else ⌈q⌉

/-- Decimal digits of `n`, most significant first; the first argument is
structural fuel (any fuel `> log10 n` gives all digits). -/
def natDigitsAux : Nat → Nat → List Char
  | 0, _ => []
  | fuel + 1, n =>
    if n = 0 then []
    else natDigitsAux fuel (n / 10) ++ [Char.ofNat (48 + n % 10)]

/-- Decimal rendering of a natural number, as Python `str` renders it. -/
def natToStr (n : Nat) : String :=
  if n = 0 then "0" else String.mk (natDigitsAux (n + 1) n)

/-- Python `str(i)` for an `int`. -/
def intToStr (i : Int) : String :=
  if i < 0 then "-" ++ natToStr i.natAbs else natToStr i.natAbs

/-- Accumulating decimal parse of a digit run; `none` on any non-digit. -/
def digitsToNat : List Char → Nat → Option Nat
  | [], acc => some acc
  | c :: cs, acc =>
    if c.isDigit then digitsToNat cs (10 * acc + (c.toNat - 48)) else none

/-- Python `int(s)` on the decimal strings this pipeline produces (optional
leading minus then digits); exotic accepted forms (surrounding whitespace,
underscores, `+`) do not occur in the pipeline's data and are parsed as a
`ValueError` (`none`) here. -/
def pyParseInt (s : String) : Option Int :=
  match s.data with
  | [] => none
  | ['-'] => none
  | '-' :: cs => (digitsToNat cs 0).map (fun n => -(n : Int))
  | cs => (digitsToNat cs 0).map (fun n => (n : Int))

/-! ## Rate service (src/services/rate_service.py)

`RATE_TOLERANCE` and `RATE_VALIDITY_MINUTES` are the environment-variable
defaults (`0.05` and `5`). -/

def RATE_TOLERANCE : ℚ := 5 / 100

def RATE_VALIDITY_MINUTES : Int := 5

/-- `RateService.is_rate_within_tolerance` (rate_service.py lines 132-161):
`if quoted_rate <= 0: return False`, else
`abs(current_rate - quoted_rate) / quoted_rate <= tolerance`. -/
def is_rate_within_tolerance (quoted_rate current_rate : ℚ)
    (tolerance : ℚ := RATE_TOLERANCE) : Bool :=
  if quoted_rate ≤ 0 then false
  else
    let deviation := |current_rate - quoted_rate| / quoted_rate
    decide (deviation ≤ tolerance)

/-- `RateService.is_rate_expired` (rate_service.py lines 163-189), with the
current time passed explicitly.  `if not quoted_at: return True` fires
exactly when the argument is `None` (a `datetime` is always truthy); the
naive-timestamp branch normalises to UTC, the identity here; then
`expired = age > timedelta(minutes=RATE_VALIDITY_MINUTES)`. -/
def is_rate_expired (now : Int) (quoted_at : Option Int) : Bool :=
  match quoted_at with
  | none => true
  | some t => decide (now - t > RATE_VALIDITY_MINUTES * 60)

/-! ## Data model (src/models.py)

`Switch` is the per-pin configuration; `Bitcoinswitch` the device.  The
`password`, `disabled` and `disposable` fields are read by `views_lnurl.py`
and written by `crud.create_bitcoinswitch`, so they belong to the record the
running variant operates on even though `models.py` omits them from the
pydantic class. -/

structure Switch where
  amount : ℚ := 0
  duration : Int := 0
  pin : Int := 0
  comment_allowed : Bool := false
  variable_flag : Bool := false
  accepts_assets : Bool := false
  accepted_asset_ids : List String := []
deriving DecidableEq

structure Bitcoinswitch where
  id : String
  title : String := ""
  wallet : String := ""
  currency : String := "sat"
  password : Option String := none
  disabled : Bool := false
  disposable : Bool := true
  switches : List Switch := []
deriving DecidableEq

/-- `BitcoinswitchPayment` (models.py lines 110-188): the PaymentAttempt.
`quoted_rate` / `quoted_at` are the embedded market-maker quote. -/
structure BitcoinswitchPayment where
  id : String
  payment_hash : String
  bitcoinswitch_id : String
  payload : String
  pin : Int
  sats : Int
  is_taproot : Bool := false
  asset_id : Option String := none
  quoted_rate : Option ℚ := none
  quoted_at : Option Int := none
deriving DecidableEq

/-- The fields of `payment.extra` read by `on_invoice_paid` (tasks.py).
`pid` is `extra["id"]`, `variable_flag` is `extra["variable"] is True`. -/
structure PaymentExtra where
  is_taproot : Bool := false
  pid : Option String := none
  tag : Option String := none
  variable_flag : Bool := false
  amount : Option Int := none
  asset_amount : Option Int := none
  comment : Option String := none
deriving DecidableEq

/-- The inbound payment-confirmation event. -/
structure Payment where
  payment_hash : String := ""
  extra : PaymentExtra := {}
deriving DecidableEq

/-! ## Settlement routine (src/tasks.py `on_invoice_paid`)

The routine's external effects are recorded in order as events:
`ledgerWrite` is the persisted `update_bitcoinswitch_payment` call that
overwrites `payment_hash`, `sinkSend` is the `websocket_updater` dispatch
attempt (payload kept structured: pin, duration value, truthy comment), and
`rateCheck` would be an invocation of the Rate Reconciler — the code never
emits one, the constructor exists so that its absence is expressible. -/

/-- Duration part of the wire payload: either a string (fixed-time payload
or the `str(amount)` fallback) or the exact value of the Python float
computed by `calculate_variable_payload`. -/
inductive DurVal
  | str (s : String)
  | num (q : ℚ)
deriving DecidableEq

inductive Ev
  | ledgerWrite (attempt_id : String) (new_payment_hash : String)
  | sinkSend (switch_id : String) (pin : Int) (dur : DurVal)
      (comment : Option String)
  | rateCheck (quoted : ℚ) (current : ℚ)
deriving DecidableEq

/-- Python truthiness filter applied by `if comment := payment.extra.get("comment")`:
`None` and the empty string are both falsy. -/
def truthyComment : Option String → Option String
  | some c => if c = "" then none else some c
  | none => none

/-- Python truthiness of an optional string (`if asset_id:`): `None` and
the empty string are falsy, every other string is truthy. -/
def pyTruthy : Option String → Bool
  | some s => decide (s ≠ "")
  | none => false

/-- `calculate_variable_payload` (tasks.py lines 52-85): returns
`str((int(base_payload) / base_sats) * payment_amount)` — here the exact
value of that expression — or `None` when `base_sats <= 0` or when
`int(base_payload)` raises `ValueError`.  No rounding is applied. -/
def calculate_variable_payload (base_payload : String) (base_sats : Int)
    (payment_amount : Int) : Option ℚ :=
  if base_sats ≤ 0 then none
  else
    match pyParseInt base_payload with
    | none => none
    | some d => some ((d : ℚ) / (base_sats : ℚ) * (payment_amount : ℚ))

/-- Wire payload build (tasks.py lines 159-162): `f"{pin}-{payload}"`, then
`f"{payload}-{comment}"` when the comment is truthy; `dur` is the serialised
duration part. -/
def buildPayload (pin : Int) (dur : String) (comment : Option String) :
    String :=
  let payload := intToStr pin ++ "-" ++ dur
  match truthyComment comment with
  | some c => payload ++ "-" ++ c
  | none => payload

/-- Persistent state visible to the settlement routine: the payment ledger
keyed by attempt id and the switch registry keyed by device id. -/
structure Env where
  ledger : List (String × BitcoinswitchPayment) := []
  switches : List (String × Bitcoinswitch) := []
deriving DecidableEq

/-- Keyed lookup; a `None` key (Python `get_bitcoinswitch_payment(None)`)
finds nothing. -/
def lookupL {α : Type} (l : List (String × α)) : Option String → Option α
  | none => none
  | some key => (l.find? (fun kv => kv.1 == key)).map (·.2)

/-- `db.update` on the payment row: replaces the entry whose key is the
record's id. -/
def updateLedger (env : Env) (bp : BitcoinswitchPayment) : Env :=
  { env with
    ledger := env.ledger.map (fun kv => if kv.1 == bp.id then (kv.1, bp) else kv) }

/-- `payment.extra.get("asset_amount", int(payment.extra.get("amount", 0)))`
(tasks.py lines 143-146): the taproot amount prefers the asset amount. -/
def taprootAmount (e : PaymentExtra) : Int :=
  match e.asset_amount with
  | some a => a
  | none => e.amount.getD 0

/-- Dispatch pair emitted on a completed settlement: the terminal-marking
ledger write followed by the sink send. -/
def writeThenSend (bp : BitcoinswitchPayment) (p : Payment) (dur : DurVal) :
    List Ev :=
  [Ev.ledgerWrite bp.id bp.payload,
   Ev.sinkSend bp.bitcoinswitch_id bp.pin dur (truthyComment p.extra.comment)]

/-- Events emitted once the attempt and switch resolve (tasks.py lines
134-183).  The ledger write (`payment_hash := payload`) comes first; then
the variable-time computation; then the sink dispatch.  A non-taproot
variable payment whose `extra` lacks `"amount"` raises `KeyError` after the
write (`int(payment.extra["amount"])`), so only the write is emitted on
that path; a failed variable computation falls back to `str(amount)`. -/
def settleEvents (bp : BitcoinswitchPayment) (p : Payment) : List Ev :=
  if p.extra.variable_flag then
    if p.extra.is_taproot then
      match calculate_variable_payload bp.payload bp.sats (taprootAmount p.extra) with
      | some q => writeThenSend bp p (DurVal.num q)
      | none => writeThenSend bp p (DurVal.str (intToStr (taprootAmount p.extra)))
    else
      match p.extra.amount with
      | none => [Ev.ledgerWrite bp.id bp.payload]
      | some a =>
        match calculate_variable_payload bp.payload bp.sats a with
        | some q => writeThenSend bp p (DurVal.num q)
        | none => writeThenSend bp p (DurVal.str (intToStr a))
  else
    writeThenSend bp p (DurVal.str bp.payload)

/-- `on_invoice_paid` (tasks.py lines 88-183).  Taproot payments must carry
`extra["id"]`; Lightning payments must carry `extra["tag"] == "Switch"` (and
then the same `extra["id"]` lookup is attempted).  A missing attempt, the
`payment_hash == "paid"` replay guard, or a missing switch each drop the
event.  Otherwise the attempt is updated (`payment_hash := payload`) and the
activation payload is dispatched. -/
def on_invoice_paid (env : Env) (p : Payment) : List Ev × Env :=
  if p.extra.is_taproot ∧ p.extra.pid = none then ([], env)
  else if ¬p.extra.is_taproot ∧ p.extra.tag ≠ some "Switch" then ([], env)
  else
    match lookupL env.ledger p.extra.pid with
    | none => ([], env)
    | some bp =>
      if bp.payment_hash = "paid" then ([], env)
      else
        match lookupL env.switches (some bp.bitcoinswitch_id) with
        | none => ([], env)
        | some _sw =>
          (settleEvents bp p, updateLedger env { bp with payment_hash := bp.payload })

/-! ## Trace observations -/

def isSink : Ev → Bool
  | Ev.sinkSend _ _ _ _ => true
  | _ => false

def isLedgerWrite : Ev → Bool
  | Ev.ledgerWrite _ _ => true
  | _ => false

def isRateCheck : Ev → Bool
  | Ev.rateCheck _ _ => true
  | _ => false

def sinkCount (tr : List Ev) : Nat := (tr.filter isSink).length

def rateCheckCount (tr : List Ev) : Nat := (tr.filter isRateCheck).length

/-- Every ledger write in the trace is preceded by some sink dispatch (the
flag records whether a dispatch has been seen). -/
def writesOnlyAfterDispatchAux : List Ev → Bool → Bool
  | [], _ => true
  | Ev.ledgerWrite _ _ :: rest, seen => seen && writesOnlyAfterDispatchAux rest seen
  | Ev.sinkSend _ _ _ _ :: rest, _ => writesOnlyAfterDispatchAux rest true
  | Ev.rateCheck _ _ :: rest, seen => writesOnlyAfterDispatchAux rest seen

def writesOnlyAfterDispatch (tr : List Ev) : Bool :=
  writesOnlyAfterDispatchAux tr false

/-- Every sink dispatch in the trace is preceded by some ledger write. -/
def dispatchOnlyAfterWriteAux : List Ev → Bool → Bool
  | [], _ => true
  | Ev.sinkSend _ _ _ _ :: rest, seen => seen && dispatchOnlyAfterWriteAux rest seen
  | Ev.ledgerWrite _ _ :: rest, _ => dispatchOnlyAfterWriteAux rest true
  | Ev.rateCheck _ _ :: rest, seen => dispatchOnlyAfterWriteAux rest seen

def dispatchOnlyAfterWrite (tr : List Ev) : Bool :=
  dispatchOnlyAfterWriteAux tr false

/-! ## Quote-independence and password-independence helpers -/

/-- Erase the market-maker quote from an attempt. -/
def clearQuote (bp : BitcoinswitchPayment) : BitcoinswitchPayment :=
  { bp with quoted_rate := none, quoted_at := none }

/-- Erase every quote in the ledger. -/
def clearQuotes (env : Env) : Env :=
  { env with ledger := env.ledger.map (fun kv => (kv.1, clearQuote kv.2)) }

/-- Rewrite every device's password. -/
def setPasswords (env : Env) (f : String → Option String) : Env :=
  { env with
    switches := env.switches.map (fun kv => (kv.1, { kv.2 with password := f kv.1 })) }

/-! ## Quoting stage (src/views_lnurl.py `lnurl_params`) -/

/-- External inputs of one `lnurl_callback` evaluation. -/
structure QuoteCtx where
  taproot_available : Bool := false
  fiat_price_sats : ℚ := 0
  oracle_rate : Option ℚ := none
  wallet_found : Bool := true
deriving DecidableEq

/-- Outcome of `lnurl_params`: an LNURL error response, an unhandled
Python exception escaping the handler (identified by the undefined name
whose evaluation raised `NameError`), or a pay response carrying the
`(minSendable, maxSendable)` millisatoshi range. -/
inductive ParamsResult
  | err (reason : String)
  | nameError (missing_name : String)
  | response (min_msat max_msat : Int)
deriving DecidableEq

/-- `lnurl_params` (views_lnurl.py lines 38-222).  The guards return LNURL
error responses: unknown device (lines 41-44), disabled device (45-48),
unknown pin (50-52).  Any request that passes them computes the base price
(lines 54-59; the external fiat conversion's result is dead, see below)
and then evaluates the debug log at line 68, whose f-string references the
undefined name `switch_id` — the parameter is `bitcoinswitch_id` and no
such global exists — raising `NameError` before `price_msat`,
`max_sendable` (the `× 100` variable-time bound, line 155) or the
response (lines 187-222) are ever computed.  The handler therefore never
produces a `ParamsResult.response`. -/
def lnurl_params (switches : List (String × Bitcoinswitch))
    (bitcoinswitch_id : String) (pin : Int) : ParamsResult :=
  match lookupL switches (some bitcoinswitch_id) with
  | none => ParamsResult.err
      ("bitcoinswitch " ++ bitcoinswitch_id ++ " not found on this server")
  | some sw =>
    if sw.disabled then
      ParamsResult.err ("bitcoinswitch " ++ bitcoinswitch_id ++ " is disabled")
    else
      match sw.switches.find? (fun s => s.pin == pin) with
      | none =>
        ParamsResult.err ("Switch with pin " ++ intToStr pin ++ " not found.")
      | some _cfg => ParamsResult.nameError "switch_id"

/-! ## Callback stage (src/views_lnurl.py `lnurl_callback`) -/

/-- Outcome of `lnurl_callback`: an LNURL error response (no invoice, no
payment record created), a Lightning pay response (invoice of
`invoice_sats` and a `BitcoinswitchPayment` record created, success message
attached), or a taproot pay response (taproot invoice and record created;
`handle_taproot_payment` internals beyond the message are abstracted). -/
inductive CbResult
  | err (reason : String)
  | pay (invoice_sats : Int) (message : String)
  | taprootPay (asset_id : String) (message : String)
deriving DecidableEq

def CbResult.creates_invoice : CbResult → Bool
  | CbResult.err _ => false
  | CbResult.pay _ _ => true
  | CbResult.taprootPay _ _ => true

def CbResult.creates_attempt_record : CbResult → Bool
  | CbResult.err _ => false
  | CbResult.pay _ _ => true
  | CbResult.taprootPay _ _ => true

/-- `switch.password and switch.password != comment` (views_lnurl.py lines
385 and 498): a set (truthy) password differing from the supplied comment
(`comment` may be `None`, which always differs). -/
def passwordMismatch (password : Option String) (comment : Option String) :
    Bool :=
  match password with
  | some pw => decide (pw ≠ "" ∧ some pw ≠ comment)
  | none => false

/-- Lightning branch of `lnurl_callback` (views_lnurl.py lines 358-392):
creates the invoice for `int(amount / 1000)` sats and the payment record,
and builds the success message, appending the incorrect-password flag on a
mismatch. -/
def lightningPay (sw : Bitcoinswitch) (a : Int) (comment : Option String) :
    CbResult :=
  let sats := pyTruncInt ((a : ℚ) / 1000)
  let message := intToStr sats ++ "sats sent"
  let message :=
    if passwordMismatch sw.password comment then
      message ++ ", but password was incorrect! :("
    else message
  CbResult.pay sats message

/-- Success message of `handle_taproot_payment` (views_lnurl.py lines
497-501); the asset's display name comes from an external lookup. -/
def taprootMessage (sw : Bitcoinswitch) (cfg : Switch)
    (comment : Option String) (asset_name : String) : String :=
  if passwordMismatch sw.password comment then "Password was incorrect! :("
  else intToStr (pyTruncInt cfg.amount) ++ " " ++ asset_name ++ " sent"

/-- Extra external inputs of `lnurl_callback` beyond `QuoteCtx`:
`has_connection` is `websocket_manager.has_connection(switch_id)`;
`taproot_ok` abstracts `handle_taproot_payment` completing without an
exception (an exception falls back to the Lightning branch); `asset_name`
is the external display-name lookup. -/
structure CallbackCtx where
  quote : QuoteCtx := {}
  has_connection : Bool := true
  taproot_ok : Bool := true
  asset_name : String := ""
deriving DecidableEq

/-- The expected millisatoshi price recomputed by `lnurl_callback`
(views_lnurl.py lines 267-299), same dataflow as the pricing part of
`lnurl_params`. -/
def expectedMsat (ctx : QuoteCtx) (sw : Bitcoinswitch) (cfg : Switch) : Int :=
  let expected_base_sats : ℚ :=
    if sw.currency ≠ "sat" then ctx.fiat_price_sats else cfg.amount
  let expected_base_sats :=
    if ctx.taproot_available ∧ cfg.accepts_assets ∧
        cfg.accepted_asset_ids ≠ [] ∧ ctx.wallet_found then
      match ctx.oracle_rate with
      | some r => if 0 < r then cfg.amount * r else expected_base_sats
      | none => expected_base_sats
    else expected_base_sats
  pyTruncInt (expected_base_sats * 1000)

/-- `lnurl_callback` (views_lnurl.py lines 225-392): guards in source
order — comment length, missing/zero amount, switch lookup, disabled
device, pin lookup, websocket connection (unless disposable) — then the
underpayment check `amount < expected_msat * 0.99`, skipped only when
`asset_id` is truthy (`if asset_id:` at line 315 — a supplied empty
string does NOT skip it); then the taproot dispatch branch when its
truthiness-guarded condition (line 336) applies, else the Lightning
branch. -/
def lnurl_callback (ctx : CallbackCtx)
    (switches : List (String × Bitcoinswitch)) (switch_id : String)
    (pin : Int) (amount : Option Int) (comment : Option String)
    (asset_id : Option String) : CbResult :=
  if (match comment with | some c => decide (255 < c.length) | none => false) then
    CbResult.err "Comment too long, max 255 characters."
  else
    match amount with
    | none => CbResult.err "No amount specified."
    | some a =>
      if a = 0 then CbResult.err "No amount specified."
      else
        match lookupL switches (some switch_id) with
        | none => CbResult.err "Switch not found."
        | some sw =>
          if sw.disabled then
            CbResult.err ("bitcoinswitch " ++ switch_id ++ " is disabled")
          else
            match sw.switches.find? (fun s => s.pin == pin) with
            | none =>
              CbResult.err ("Switch with pin " ++ intToStr pin ++ " not found.")
            | some cfg =>
              if ¬sw.disposable ∧ ¬ctx.has_connection then
                CbResult.err "No active bitcoinswitch connections."
              else
                let expected := expectedMsat ctx.quote sw cfg
                if pyTruthy asset_id = false ∧
                    (a : ℚ) < (expected : ℚ) * (99 / 100) then
                  CbResult.err ("Amount " ++ intToStr a ++
                    " msat is below minimum " ++ intToStr expected ++ " msat")
                else
                  match asset_id with
                  | some aid =>
                    if ctx.quote.taproot_available ∧ aid ≠ "" ∧
                        cfg.accepts_assets then
                      if aid ∈ cfg.accepted_asset_ids then
                        if ¬ctx.quote.wallet_found then
                          CbResult.err "Wallet not found"
                        else if ctx.taproot_ok then
                          CbResult.taprootPay aid
                            (taprootMessage sw cfg comment ctx.asset_name)
                        else lightningPay sw a comment
                      else lightningPay sw a comment
                    else lightningPay sw a comment
                  | none => lightningPay sw a comment

/-! ## Concrete fixtures

A minimal device/attempt pair used by the concrete evaluations: switch
`"sw1"` with pin `3`, attempt `"p1"` with configured duration payload
`"1000"` and a price of `10` sats, confirmed by a taproot event carrying
`extra["id"] = "p1"` (Lightning confirmations carry no `extra["id"]` and are
dropped at the attempt lookup). -/

def swCfgFix : Switch :=
  { amount := 10, duration := 1000, pin := 3 }

def swFix : Bitcoinswitch :=
  { id := "sw1", title := "Demo", wallet := "w1", switches := [swCfgFix] }

def bpFix : BitcoinswitchPayment :=
  { id := "p1", payment_hash := "h1", bitcoinswitch_id := "sw1",
    payload := "1000", pin := 3, sats := 10 }

def envFix : Env :=
  { ledger := [("p1", bpFix)], switches := [("sw1", swFix)] }

def payFix : Payment :=
  { payment_hash := "h1", extra := { is_taproot := true, pid := some "p1" } }

/-- First delivery of the confirmation. -/
def runOnce : List Ev × Env := on_invoice_paid envFix payFix

/-- Second delivery of the same confirmation, against the updated ledger. -/
def runTwice : List Ev × Env := on_invoice_paid runOnce.2 payFix

/-- An attempt carrying a (long-expired) market-maker quote. -/
def bpQuoted : BitcoinswitchPayment :=
  { bpFix with quoted_rate := some 100, quoted_at := some 0 }

def envQuoted : Env :=
  { ledger := [("p1", bpQuoted)], switches := [("sw1", swFix)] }

/-- Settlement of the quoted attempt, observed at time `10000 s`. -/
def runQuoted : List Ev × Env := on_invoice_paid envQuoted payFix

/-- An attempt whose switch price is `0` sats (division-by-zero case). -/
def bpZero : BitcoinswitchPayment := { bpFix with sats := 0 }

def envZero : Env :=
  { ledger := [("p1", bpZero)], switches := [("sw1", swFix)] }

/-- A variable-time taproot confirmation of `7` asset units. -/
def payVar : Payment :=
  { payment_hash := "h1",
    extra := { is_taproot := true, pid := some "p1", variable_flag := true,
               asset_amount := some 7 } }

/-- The fixture device protected by password `"abc"`. -/
def swPw : Bitcoinswitch := { swFix with password := some "abc" }

def envPw : Env :=
  { ledger := [("p1", bpFix)], switches := [("sw1", swPw)] }

/-- A confirmation carrying the wrong comment `"xyz"`. -/
def payXyz : Payment :=
  { payment_hash := "h1",
    extra := { is_taproot := true, pid := some "p1", comment := some "xyz" } }

/-! ## Helper lemmas -/

/-- Keyed lookup commutes with a value-mapping of the store. -/
theorem lookupL_map {α β : Type} (g : String → α → β) (l : List (String × α))
    (key : String) :
    lookupL (l.map (fun kv => (kv.1, g kv.1 kv.2))) (some key) =
      (lookupL l (some key)).map (g key) := by
  induction l with
  | nil => rfl
  | cons kv rest ih =>
    by_cases h : kv.1 == key
    · have hk : kv.1 = key := by simpa using h
      simp [lookupL, List.find?_cons_of_pos, h, hk]
    · simp only [lookupL, List.map_cons] at ih ⊢
      rw [List.find?_cons_of_neg _ (by simpa using h),
        List.find?_cons_of_neg _ (by simpa using h)]
      exact ih

/-- The settlement events only read the non-quote fields of the attempt. -/
theorem settleEvents_clearQuote (bp : BitcoinswitchPayment) (p : Payment) :
    settleEvents (clearQuote bp) p = settleEvents bp p := rfl

/-- Every settlement trace is either the bare terminal write (the
exception path) or the write followed by the sink dispatch. -/
theorem settleEvents_cases (bp : BitcoinswitchPayment) (p : Payment) :
    settleEvents bp p = [Ev.ledgerWrite bp.id bp.payload] ∨
      ∃ d, settleEvents bp p = writeThenSend bp p d := by
  unfold settleEvents
  repeat' split
  all_goals first
    | (left; rfl)
    | (right; exact ⟨_, rfl⟩)

/-- Every `on_invoice_paid` trace is empty or a settlement trace of the
resolved attempt. -/
theorem on_invoice_paid_cases (env : Env) (p : Payment) :
    (on_invoice_paid env p).1 = [] ∨
      ∃ bp, lookupL env.ledger p.extra.pid = some bp ∧
        (on_invoice_paid env p).1 = settleEvents bp p := by
  unfold on_invoice_paid
  repeat' split
  all_goals first
    | (left; rfl)
    | (right; exact ⟨_, by assumption, rfl⟩)

/-- The trace component of `on_invoice_paid`, with the pair projection
pushed through every branch. -/
theorem on_invoice_paid_fst (env : Env) (p : Payment) :
    (on_invoice_paid env p).1 =
      if p.extra.is_taproot ∧ p.extra.pid = none then []
      else if ¬p.extra.is_taproot ∧ p.extra.tag ≠ some "Switch" then []
      else
        match lookupL env.ledger p.extra.pid with
        | none => []
        | some bp =>
          if bp.payment_hash = "paid" then []
          else
            match lookupL env.switches (some bp.bitcoinswitch_id) with
            | none => []
            | some _sw => settleEvents bp p := by
  unfold on_invoice_paid
  repeat' split
  all_goals rfl

/-- Settlement is blind to the stored quotes: erasing every quote from the
ledger leaves the emitted events unchanged. -/
theorem on_invoice_paid_clearQuotes (env : Env) (p : Payment) :
    (on_invoice_paid (clearQuotes env) p).1 = (on_invoice_paid env p).1 := by
  rw [on_invoice_paid_fst, on_invoice_paid_fst]
  split_ifs with h1 h2
  · rfl
  · rfl
  · cases hpid : p.extra.pid with
    | none => rfl
    | some key =>
      have hm : lookupL (clearQuotes env).ledger (some key)
          = Option.map clearQuote (lookupL env.ledger (some key)) :=
        lookupL_map (fun _ bp => clearQuote bp) env.ledger key
      rw [hm]
      cases hb : lookupL env.ledger (some key) with
      | none => rfl
      | some bp => rfl

/-- Settlement is blind to device passwords: rewriting every password
leaves the emitted events unchanged. -/
theorem on_invoice_paid_setPasswords (env : Env) (p : Payment)
    (f : String → Option String) :
    (on_invoice_paid (setPasswords env f) p).1 = (on_invoice_paid env p).1 := by
  rw [on_invoice_paid_fst, on_invoice_paid_fst]
  split_ifs with h1 h2
  · rfl
  · rfl
  · cases hpid : p.extra.pid with
    | none => rfl
    | some key =>
      rw [show (setPasswords env f).ledger = env.ledger from rfl]
      cases hb : lookupL env.ledger (some key) with
      | none => rfl
      | some bp =>
        dsimp only
        by_cases hp : bp.payment_hash = "paid"
        · rw [if_pos hp, if_pos hp]
        · rw [if_neg hp, if_neg hp]
          have hs := lookupL_map (fun k sw => { sw with password := f k })
            env.switches bp.bitcoinswitch_id
          rw [show (setPasswords env f).switches
              = env.switches.map (fun kv => (kv.1, { kv.2 with password := f kv.1 }))
              from rfl, hs]
          cases hsw : lookupL env.switches (some bp.bitcoinswitch_id) with
          | none => rfl
          | some sw => rfl

/-- A settlement trace never contains a rate check. -/
theorem settleEvents_rateCheckCount (bp : BitcoinswitchPayment) (p : Payment) :
    rateCheckCount (settleEvents bp p) = 0 := by
  rcases settleEvents_cases bp p with h | ⟨d, h⟩ <;> rw [h] <;> rfl

/-- In a settlement trace, every sink dispatch is preceded by the
terminal-marking ledger write. -/
theorem settleEvents_dispatchOnlyAfterWrite (bp : BitcoinswitchPayment)
    (p : Payment) :
    dispatchOnlyAfterWrite (settleEvents bp p) = true := by
  rcases settleEvents_cases bp p with h | ⟨d, h⟩ <;> rw [h] <;> rfl

/-! ## Claims -/

/-- C1: the claimed idempotence fails on the code.  The replay guard
compares `payment_hash` with the sentinel `"paid"` (tasks.py line 120,
logging "Payment already processed"), but the terminal marking writes the
*payload* (`payment_hash := payload`, line 135), so after a first delivery
the hash is `"1000"`, the guard never fires, and a second delivery of the
same confirmation reaches the sink again: the Activation Sink fires twice,
not at most once. -/
theorem C1_replay_guard_ineffective :
    sinkCount runOnce.1 = 1 ∧
    sinkCount runTwice.1 = 1 ∧
    (lookupL runOnce.2.ledger (some "p1")).map (fun bp => bp.payment_hash)
      = some "1000" := by
  exact ⟨by decide, by decide, by decide⟩

/-- C2 counterexample: an attempt carrying a quote so old that the Rate
Reconciler would reject it (`is_rate_expired` is true at the observation
time) is nevertheless settled: the trace contains no rate check, the sink
is invoked, and the attempt is marked terminal. -/
theorem C2_revalidation_counterexample :
    bpQuoted.quoted_rate = some 100 ∧
    is_rate_expired 10000 bpQuoted.quoted_at = true ∧
    rateCheckCount runQuoted.1 = 0 ∧
    sinkCount runQuoted.1 = 1 ∧
    (lookupL runQuoted.2.ledger (some "p1")).map (fun bp => bp.payment_hash)
      = some "1000" := by
  exact ⟨rfl, by decide, by decide, by decide, by decide⟩

/-- C2 (amended): the Settlement Stage performs no quote revalidation at
all: no settlement run ever invokes the Rate Reconciler, and the emitted
events are unchanged when every stored quote is erased — dispatch and
terminal marking do not depend on the quote. -/
theorem C2_no_revalidation_amended :
    (∀ (env : Env) (p : Payment), rateCheckCount (on_invoice_paid env p).1 = 0) ∧
    (∀ (env : Env) (p : Payment),
      (on_invoice_paid (clearQuotes env) p).1 = (on_invoice_paid env p).1) := by
  constructor
  · intro env p
    rcases on_invoice_paid_cases env p with h | ⟨bp, _, h⟩
    · rw [h]; rfl
    · rw [h]; exact settleEvents_rateCheckCount bp p
  · exact on_invoice_paid_clearQuotes

/-- C3 counterexample: in the concrete settlement run the terminal-marking
ledger write occurs *before* the sink dispatch — the trace is
`[ledgerWrite, sinkSend]`, so it is not the case that the write happens
only after the Sink is called even though a dispatch attempt does occur. -/
theorem C3_terminal_before_dispatch_counterexample :
    runOnce.1 = [Ev.ledgerWrite "p1" "1000",
      Ev.sinkSend "sw1" 3 (DurVal.str "1000") none] ∧
    writesOnlyAfterDispatch runOnce.1 = false ∧
    sinkCount runOnce.1 = 1 := by
  exact ⟨by decide, by decide, by decide⟩

/-- C3 (amended): the order is the reverse of the claim: in every execution
of `on_invoice_paid`, the terminal-marking write precedes any dispatch —
every sink event in the trace is preceded by the ledger write. -/
theorem C3_terminal_precedes_dispatch_amended :
    ∀ (env : Env) (p : Payment),
      dispatchOnlyAfterWrite (on_invoice_paid env p).1 = true := by
  intro env p
  rcases on_invoice_paid_cases env p with h | ⟨bp, _, h⟩
  · rw [h]; rfl
  · rw [h]; exact settleEvents_dispatchOnlyAfterWrite bp p

/-- C4 counterexample: the code applies no rounding.  At price `3`,
duration `5000`, confirmed amount `1`, the computed payload value is
`5000/3`, which differs from `round(a / p × d) = round(5000/3) = 1667`. -/
theorem C4_rounding_counterexample :
    calculate_variable_payload "5000" 3 1 = some (5000 / 3 : ℚ) ∧
    (5000 / 3 : ℚ) ≠ ((round ((1 : ℚ) / 3 * 5000) : ℤ) : ℚ) := by
  constructor
  · rw [calculate_variable_payload,
      show pyParseInt "5000" = some 5000 from by decide]
    norm_num
  · have h : ((round ((1 : ℚ) / 3 * 5000) : ℤ) : ℚ) = 1667 := by
      norm_num [round_eq]
    rw [h]
    norm_num

/-- C4 (amended): the variable-time payload value is exactly
`a / p × d` with no rounding applied; in particular `p = 10, d = 5000`
gives `10000` for `a = 20` and `2500` for `a = 5` (both exact, so the
claimed example values are unaffected); and when `p = 0` the computation
returns `None` without raising, and the settlement falls back to the raw
confirmed amount as the payload. -/
theorem C4_variable_scaling_amended :
    (∀ (s : String) (d base_sats amount : Int),
        pyParseInt s = some d → 0 < base_sats →
        calculate_variable_payload s base_sats amount
          = some ((d : ℚ) / (base_sats : ℚ) * (amount : ℚ))) ∧
    (∀ (s : String) (amount : Int),
        calculate_variable_payload s 0 amount = none) ∧
    calculate_variable_payload "5000" 10 20 = some 10000 ∧
    calculate_variable_payload "5000" 10 5 = some 2500 ∧
    (on_invoice_paid envZero payVar).1 =
      [Ev.ledgerWrite "p1" "1000",
       Ev.sinkSend "sw1" 3 (DurVal.str "7") none] := by
  refine ⟨?_, ?_, ?_, ?_, by decide⟩
  · intro s d base amount hs hpos
    rw [calculate_variable_payload, if_neg (not_le.mpr hpos), hs]
  · intro s amount
    rw [calculate_variable_payload, if_pos le_rfl]
  · rw [calculate_variable_payload,
      show pyParseInt "5000" = some 5000 from by decide]
    norm_num
  · rw [calculate_variable_payload,
      show pyParseInt "5000" = some 5000 from by decide]
    norm_num

/-- C4 witness: the amended scaling law applied at `d = 5000`, `p = 10`,
`a = 20`. -/
theorem C4_variable_scaling_witness :
    calculate_variable_payload "5000" 10 20
      = some ((5000 : ℚ) / (10 : ℚ) * (20 : ℚ)) :=
  C4_variable_scaling_amended.1 "5000" 5000 10 20 (by decide) (by decide)

/-- C5 counterexample: at a concrete well-formed quote request (known
enabled device, pin 3, variable time disabled) `lnurl_params` returns no
payable range at all: it raises `NameError` from the line-68 debug log
referencing the undefined name `switch_id`, so no returned range satisfies
`min = max = basePrice`. -/
theorem C5_params_counterexample :
    lnurl_params [("sw1", swFix)] "sw1" 3 = ParamsResult.nameError "switch_id" ∧
    ¬∃ mn mx : Int,
      lnurl_params [("sw1", swFix)] "sw1" 3 = ParamsResult.response mn mx := by
  have h : lnurl_params [("sw1", swFix)] "sw1" 3
      = ParamsResult.nameError "switch_id" := by decide
  refine ⟨h, ?_⟩
  rintro ⟨mn, mx, hr⟩
  rw [h] at hr
  exact ParamsResult.noConfusion hr

/-- C5 (amended): no quote request returns a payable range: whenever the
device resolves, is enabled, and the pin is found, `lnurl_params` raises
`NameError` (the undefined `switch_id` in the debug log at views_lnurl.py
line 68) before the price and range computation is reached, and no request
whatsoever produces a pay response.  (The range computation it crashes in
front of would use a `× 100` variable-time multiplier, not `× 360`, were
it reachable.) -/
theorem C5_params_amended :
    (∀ (switches : List (String × Bitcoinswitch)) (bid : String) (pin : Int)
        (sw : Bitcoinswitch) (cfg : Switch),
      lookupL switches (some bid) = some sw → sw.disabled = false →
      sw.switches.find? (fun s => s.pin == pin) = some cfg →
      lnurl_params switches bid pin = ParamsResult.nameError "switch_id") ∧
    (∀ (switches : List (String × Bitcoinswitch)) (bid : String) (pin : Int)
        (mn mx : Int),
      lnurl_params switches bid pin ≠ ParamsResult.response mn mx) := by
  constructor
  · intro switches bid pin sw cfg hsw hdis hpin
    unfold lnurl_params
    rw [hsw]
    dsimp only
    rw [if_neg (by simp [hdis]), hpin]
  · intro switches bid pin mn mx
    unfold lnurl_params
    repeat' split
    all_goals exact fun hr => ParamsResult.noConfusion hr

/-- C5 witness: the amended no-range law applied to the concrete fixture
request. -/
theorem C5_params_witness :
    lnurl_params [("sw1", swFix)] "sw1" 3 = ParamsResult.nameError "switch_id" :=
  C5_params_amended.1 [("sw1", swFix)] "sw1" 3 swFix swCfgFix (by decide) rfl
    (by decide)

/-- C6: `is_rate_within_tolerance(quoted, current, tolerance)` returns
false whenever `quoted ≤ 0`, and otherwise returns true iff
`|current − quoted| / quoted ≤ tolerance` (symmetric relative deviation);
in particular `(100, 104, 0.05) → true`, `(100, 106, 0.05) → false`,
`(100, 96, 0.05) → true`, `(0, 100, 0.05) → false`. -/
theorem C6_rate_tolerance :
    (∀ q c t : ℚ, is_rate_within_tolerance q c t = true ↔
      (0 < q ∧ |c - q| / q ≤ t)) ∧
    is_rate_within_tolerance 100 104 (5 / 100) = true ∧
    is_rate_within_tolerance 100 106 (5 / 100) = false ∧
    is_rate_within_tolerance 100 96 (5 / 100) = true ∧
    is_rate_within_tolerance 0 100 (5 / 100) = false := by
  refine ⟨fun q c t => ?_, ?_, ?_, ?_, ?_⟩
  · unfold is_rate_within_tolerance
    by_cases hq : q ≤ 0
    · simp [hq, not_lt.mpr hq]
    · simp [hq, lt_of_not_ge hq]
  all_goals norm_num [is_rate_within_tolerance]

/-- C7 counterexample: the claim says a quote timestamped exactly at
`now − validity_window` is expired; at `now = 300 s`, `quoted_at = 0 s`
(age exactly `5` minutes) the code returns `false` — the comparison is
strictly greater-than. -/
theorem C7_boundary_counterexample :
    (300 : Int) - 0 = RATE_VALIDITY_MINUTES * 60 ∧
    is_rate_expired 300 (some 0) = false := by
  exact ⟨by decide, by decide⟩

/-- C7 (amended): `is_rate_expired` returns true when `quoted_at` is
absent or `now − quoted_at` strictly exceeds the validity window (default
5 minutes), naive timestamps being read as UTC; a quote timestamped
exactly at `now − validity_window` is NOT expired, one second past that
boundary is expired, and one second before it is not. -/
theorem C7_expiry_amended :
    (∀ now : Int, is_rate_expired now none = true) ∧
    (∀ now t : Int, is_rate_expired now (some t) = true ↔ now - t > 300) ∧
    is_rate_expired 300 (some 0) = false ∧
    is_rate_expired 301 (some 0) = true ∧
    is_rate_expired 299 (some 0) = false := by
  refine ⟨fun now => rfl, fun now t => ?_, by decide, by decide, by decide⟩
  simp [is_rate_expired, RATE_VALIDITY_MINUTES]

/-- C8: the wire payload is exactly `"{pin}-{duration}"`, with
`"-{comment}"` appended iff a (non-empty) comment was supplied, hyphens in
the comment not escaped: pin 3, duration 1500, comment "hello" gives
exactly `"3-1500-hello"`; no comment gives `"3-1500"`; comment "he-llo"
gives `"3-1500-he-llo"`. -/
theorem C8_payload_format :
    (∀ (pin : Int) (dur : String),
        buildPayload pin dur none = intToStr pin ++ "-" ++ dur) ∧
    (∀ (pin : Int) (dur c : String), c ≠ "" →
        buildPayload pin dur (some c) = intToStr pin ++ "-" ++ dur ++ "-" ++ c) ∧
    buildPayload 3 "1500" (some "hello") = "3-1500-hello" ∧
    buildPayload 3 "1500" none = "3-1500" ∧
    buildPayload 3 "1500" (some "he-llo") = "3-1500-he-llo" := by
  refine ⟨fun pin dur => rfl, fun pin dur c hc => ?_, by decide, by decide,
    by decide⟩
  rw [buildPayload, truthyComment, if_neg hc]

/-- C8 witness: the general format law applied at pin 3, duration "1500",
comment "hello". -/
theorem C8_payload_format_witness :
    buildPayload 3 "1500" (some "hello")
      = intToStr 3 ++ "-" ++ "1500" ++ "-" ++ "hello" :=
  C8_payload_format.2.1 3 "1500" "hello" (by decide)

/-- C9: a password mismatch never blocks dispatch and is flagged in the
outbound message: (1) settlement is entirely blind to passwords (rewriting
every device password leaves the emitted events unchanged); (2) the
concrete password-"abc" device with comment "xyz" still gets its sink
dispatch; (3) whenever the device has a set password differing from the
comment, the Lightning callback response still creates the invoice and its
success message carries the incorrect-password flag; (4) concretely, the
callback on the protected device answers with the flag appended. -/
theorem C9_password_flagged_not_blocking :
    (∀ (env : Env) (p : Payment) (f : String → Option String),
      (on_invoice_paid (setPasswords env f) p).1 = (on_invoice_paid env p).1) ∧
    (on_invoice_paid envPw payXyz).1 =
      [Ev.ledgerWrite "p1" "1000",
       Ev.sinkSend "sw1" 3 (DurVal.str "1000") (some "xyz")] ∧
    (∀ (sw : Bitcoinswitch) (a : Int) (c : Option String) (pw : String),
        sw.password = some pw → pw ≠ "" → some pw ≠ c →
        ∃ s, lightningPay sw a c
          = CbResult.pay (pyTruncInt ((a : ℚ) / 1000))
              (s ++ ", but password was incorrect! :(")) ∧
    lnurl_callback {} [("sw1", swPw)] "sw1" 3 (some 10000) (some "xyz") none
      = CbResult.pay 10 "10sats sent, but password was incorrect! :(" := by
  refine ⟨on_invoice_paid_setPasswords, by decide, ?_, ?_⟩
  · intro sw a c pw hpw hne hnec
    refine ⟨intToStr (pyTruncInt ((a : ℚ) / 1000)) ++ "sats sent", ?_⟩
    unfold lightningPay
    dsimp only
    have hmm : passwordMismatch (some pw) c = true := by
      unfold passwordMismatch
      exact decide_eq_true ⟨hne, hnec⟩
    rw [hpw, hmm, if_pos rfl]
  · have hstep : lnurl_callback {} [("sw1", swPw)] "sw1" 3 (some 10000)
        (some "xyz") none = lightningPay swPw 10000 (some "xyz") := by
      norm_num [lnurl_callback, lookupL, expectedMsat, pyTruncInt, pyTruthy,
        swPw, swFix, swCfgFix, List.find?, show ("xyz".length = 3) from rfl]
    rw [hstep, lightningPay]
    rw [show passwordMismatch swPw.password (some "xyz") = true from by decide,
      if_pos rfl,
      show pyTruncInt (((10000 : Int) : ℚ) / 1000) = 10 from by
        norm_num [pyTruncInt]]
    decide

/-- C9 witness: the flagged-message law applied to the concrete protected
device. -/
theorem C9_password_witness :
    ∃ s, lightningPay swPw 10000 (some "xyz")
      = CbResult.pay (pyTruncInt ((10000 : ℚ) / 1000))
          (s ++ ", but password was incorrect! :(") :=
  C9_password_flagged_not_blocking.2.2.1 swPw 10000 (some "xyz") "abc" rfl
    (by decide) (by decide)

/-- C10 counterexample: the underpayment check is NOT "skipped entirely
when an asset_id is supplied": the skip is `if asset_id:` (views_lnurl.py
line 315), a Python truthiness test, so a supplied empty-string
`asset_id` (e.g. the query `?asset_id=`) still gets the check, and a
below-threshold amount is rejected with the underpayment error. -/
theorem C10_empty_asset_counterexample :
    pyTruthy (some "") = false ∧
    expectedMsat ({} : CallbackCtx).quote swFix swCfgFix = 10000 ∧
    lnurl_callback {} [("sw1", swFix)] "sw1" 3 (some 9000) none (some "")
      = CbResult.err ("Amount " ++ intToStr 9000 ++ " msat is below minimum "
          ++ intToStr (expectedMsat ({} : CallbackCtx).quote swFix swCfgFix)
          ++ " msat") := by
  refine ⟨by decide, ?_, ?_⟩
  · norm_num [expectedMsat, pyTruncInt, swFix, swCfgFix]
  · norm_num [lnurl_callback, lookupL, expectedMsat, pyTruncInt, pyTruthy,
      swFix, swCfgFix, List.find?]

/-- C10 (amended): at the Lightning callback, once the request guards
pass, an amount strictly below `0.99 ×` the freshly recomputed expected
msat price is rejected with an error response, creating no invoice and no
attempt record, whenever the supplied `asset_id` is NOT a non-empty
string (absent or empty — the skip tests Python truthiness); an amount at
or above the threshold proceeds to the Lightning branch (invoice and
record created); the check is skipped only for a non-empty `asset_id`
(the outcome is then the taproot dispatch, the Lightning fallback, or a
wallet error — never the underpayment rejection). -/
theorem C10_underpayment_threshold_amended (ctx : CallbackCtx)
    (switches : List (String × Bitcoinswitch)) (switch_id : String)
    (pin : Int) (a : Int) (comment : Option String)
    (sw : Bitcoinswitch) (cfg : Switch)
    (hcomment : (match comment with
      | some c => decide (255 < c.length)
      | none => false) = false)
    (ha : a ≠ 0)
    (hsw : lookupL switches (some switch_id) = some sw)
    (hdis : sw.disabled = false)
    (hpin : sw.switches.find? (fun s => s.pin == pin) = some cfg)
    (hconn : ¬(¬sw.disposable ∧ ¬ctx.has_connection)) :
    (∀ aid? : Option String, pyTruthy aid? = false →
      ((a : ℚ) < ((expectedMsat ctx.quote sw cfg : Int) : ℚ) * (99 / 100) →
        lnurl_callback ctx switches switch_id pin (some a) comment aid?
          = CbResult.err ("Amount " ++ intToStr a ++ " msat is below minimum "
              ++ intToStr (expectedMsat ctx.quote sw cfg) ++ " msat") ∧
        (lnurl_callback ctx switches switch_id pin (some a) comment
          aid?).creates_invoice = false ∧
        (lnurl_callback ctx switches switch_id pin (some a) comment
          aid?).creates_attempt_record = false) ∧
      (¬((a : ℚ) < ((expectedMsat ctx.quote sw cfg : Int) : ℚ) * (99 / 100)) →
        lnurl_callback ctx switches switch_id pin (some a) comment aid?
          = lightningPay sw a comment)) ∧
    ((lightningPay sw a comment).creates_invoice = true ∧
      (lightningPay sw a comment).creates_attempt_record = true) ∧
    (∀ aid : String, aid ≠ "" →
      lnurl_callback ctx switches switch_id pin (some a) comment (some aid)
          = CbResult.err "Wallet not found" ∨
      lnurl_callback ctx switches switch_id pin (some a) comment (some aid)
          = CbResult.taprootPay aid (taprootMessage sw cfg comment ctx.asset_name) ∨
      lnurl_callback ctx switches switch_id pin (some a) comment (some aid)
          = lightningPay sw a comment) := by
  have hbase : ∀ aid? : Option String,
      lnurl_callback ctx switches switch_id pin (some a) comment aid? =
        (if pyTruthy aid? = false ∧
            (a : ℚ) < ((expectedMsat ctx.quote sw cfg : Int) : ℚ) * (99 / 100) then
          CbResult.err ("Amount " ++ intToStr a ++ " msat is below minimum "
            ++ intToStr (expectedMsat ctx.quote sw cfg) ++ " msat")
        else
          match aid? with
          | some aid =>
            if ctx.quote.taproot_available ∧ aid ≠ "" ∧ cfg.accepts_assets then
              if aid ∈ cfg.accepted_asset_ids then
                if ¬ctx.quote.wallet_found then CbResult.err "Wallet not found"
                else if ctx.taproot_ok then
                  CbResult.taprootPay aid (taprootMessage sw cfg comment ctx.asset_name)
                else lightningPay sw a comment
              else lightningPay sw a comment
            else lightningPay sw a comment
          | none => lightningPay sw a comment) := by
    intro aid?
    unfold lnurl_callback
    rw [hcomment]
    dsimp only
    rw [if_neg (by simp)]
    rw [if_neg ha, hsw]
    dsimp only
    rw [if_neg (by simp [hdis]), hpin]
    dsimp only
    rw [if_neg hconn]
  refine ⟨?_, ⟨rfl, rfl⟩, ?_⟩
  · intro aid? hfalsy
    constructor
    · intro hlt
      rw [hbase aid?, if_pos ⟨hfalsy, hlt⟩]
      exact ⟨rfl, rfl, rfl⟩
    · intro hge
      rw [hbase aid?, if_neg (fun hand => hge hand.2)]
      cases aid? with
      | none => rfl
      | some aid =>
        have haid : aid = "" := by
          by_contra hne
          simp [pyTruthy, hne] at hfalsy
        subst haid
        dsimp only
        rw [if_neg (fun h => h.2.1 rfl)]
  · intro aid hne
    rw [hbase (some aid), if_neg (by simp [pyTruthy, hne])]
    dsimp only
    by_cases h1 : ctx.quote.taproot_available ∧ aid ≠ "" ∧ cfg.accepts_assets
    · rw [if_pos h1]
      by_cases h2 : aid ∈ cfg.accepted_asset_ids
      · rw [if_pos h2]
        by_cases h3 : ¬ctx.quote.wallet_found
        · rw [if_pos h3]
          exact Or.inl rfl
        · rw [if_neg h3]
          by_cases h4 : ctx.taproot_ok
          · rw [if_pos h4]
            exact Or.inr (Or.inl rfl)
          · rw [if_neg h4]
            exact Or.inr (Or.inr rfl)
      · rw [if_neg h2]
        exact Or.inr (Or.inr rfl)
    · rw [if_neg h1]
      exact Or.inr (Or.inr rfl)

/-- C10 witness: the amended threshold law applied to the concrete
`10`-sat fixture switch with a `9000`-msat callback and no asset id
(expected price `10000` msat, threshold `9900`). -/
theorem C10_underpayment_witness :
    lnurl_callback {} [("sw1", swFix)] "sw1" 3 (some 9000) none none
      = CbResult.err ("Amount " ++ intToStr 9000 ++ " msat is below minimum "
          ++ intToStr (expectedMsat ({} : CallbackCtx).quote swFix swCfgFix)
          ++ " msat") :=
  (((C10_underpayment_threshold_amended {} [("sw1", swFix)] "sw1" 3 9000 none
      swFix swCfgFix rfl (by decide) (by decide) rfl (by decide)
      (by decide)).1 none rfl).1
    (by norm_num [expectedMsat, pyTruncInt, swFix, swCfgFix])).1

end BitcoinSwitch
